import Mathlib

/-!
Verification of the message-debounce, tag-processing, media-decision,
lead-state-lookup and follow-up-scheduling core of the `agentesdr`
WhatsApp SDR bot, via a shallow embedding of the relevant Python
functions into Lean.

Python strings are modelled as Lean `String` (sequences of unicode
scalar values, matching Python's code-point view); Python `dict`s with
string keys and string/bool values as insertion-ordered association
lists; Redis as an association list from key strings to stored values.
Async control flow is modelled by explicit state passing and, for the
debounce engine, by an event trace recording the order of the
side-effecting steps.
-/

namespace AgentESdr

/-! ## Python string primitives -/

/-- The whitespace characters recognised by Python's `str.strip()` /
regex `\s` for the ASCII range: space, tab, newline, carriage return,
vertical tab and form feed. -/
def isPySpace (c : Char) : Bool :=
  c = ' ' || c = '\t' || c = '\n' || c = '\r' || c = '\x0b' || c = '\x0c'

/-- Models `str.strip()` on a character list: drop whitespace at both ends. -/
def pyStripList (cs : List Char) : List Char :=
  ((cs.dropWhile isPySpace).reverse.dropWhile isPySpace).reverse

/-- Python `str.strip()`. -/
def pyStrip (s : String) : String := ⟨pyStripList s.toList⟩

/-- Python `str.lower()` (ASCII case folding; the inputs manipulated by
the code use ASCII letters in the positions where case matters). -/
def pyLower (s : String) : String := ⟨s.toList.map Char.toLower⟩

/-- Python `len(s)`: the number of code points. -/
def pyLen (s : String) : Nat := s.toList.length

/-- Models `p` holds of some suffix of the list (for regex matching this is
`re.search` existence: a match starting at some position). -/
def anySuffix (p : List Char → Bool) : List Char → Bool
  | [] => p []
  | c :: cs => p (c :: cs) || anySuffix p cs

/-- Models `sub` occurs contiguously inside `l`. -/
def listContainsSub (l sub : List Char) : Bool :=
  anySuffix (fun cs => sub.isPrefixOf cs) l

/-- Python's substring operator `sub in s`. -/
def strContains (s sub : String) : Bool :=
  listContainsSub s.toList sub.toList

/-- Fuel-driven worker for `str.replace`: replaces each non-overlapping
occurrence of `pat` (left to right) by `rep`. -/
def replaceAllAux : Nat → List Char → List Char → List Char → List Char
  | 0, cs, _, _ => cs
  | _ + 1, [], _, _ => []
  | fuel + 1, c :: cs, pat, rep =>
    if pat ≠ [] ∧ pat.isPrefixOf (c :: cs) then
      rep ++ replaceAllAux fuel ((c :: cs).drop pat.length) pat rep
    else
      c :: replaceAllAux fuel cs pat rep

/-- Python `s.replace(pat, rep)` (for non-empty `pat`). -/
def pyReplace (s pat rep : String) : String :=
  ⟨replaceAllAux s.toList.length s.toList pat.toList rep.toList⟩

/-! ## Python dict model

Python dicts with string keys are modelled as insertion-ordered
association lists: assigning to an existing key updates it in place,
assigning to a fresh key appends.  A dict produced from another by such
assignments is `==`-equal to the original exactly when the lists are
equal, which is how the model decides `new_state != current_state`. -/

/-- The values stored in the lead-state dict: strings and booleans. -/
inductive PyVal where
  | str (s : String)
  | bool (b : Bool)
deriving DecidableEq, Repr

/-- Python truthiness of a stored value. -/
def PyVal.truthy : PyVal → Bool
  | .str s => s ≠ ""
  | .bool b => b

/-- Insertion-ordered string-keyed dict. -/
abbrev PyDict := List (String × PyVal)

/-- Models `d.get(k)`. -/
def dictGet (d : PyDict) (k : String) : Option PyVal :=
  (d.find? (fun p => p.1 = k)).map (·.2)

/-- Models `d[k] = v`: update in place if the key exists, else append. -/
def dictSet (d : PyDict) (k : String) (v : PyVal) : PyDict :=
  if (d.find? (fun p => p.1 = k)).isSome then
    d.map (fun p => if p.1 = k then (k, v) else p)
  else
    d ++ [(k, v)]

/-- Models `d.update(kvs)`: fold assignments left to right. -/
def dictUpdate (d : PyDict) (kvs : List (String × PyVal)) : PyDict :=
  kvs.foldl (fun acc p => dictSet acc p.1 p.2) d

/-! ## `utils/media_decision.py` -/

/-- regex `\d` (ASCII digits; all digit runs fed to this code are ASCII). -/
def isDigitChar (c : Char) : Bool := c.isDigit

/-- regex class `[\s.-]` used as the optional separator in the phone
pattern. -/
def isSepChar (c : Char) : Bool := isPySpace c || c = '.' || c = '-'

/-- Match exactly `n` digits at the front, returning the rest. -/
def matchDigits (n : Nat) (cs : List Char) : Option (List Char) :=
  if (cs.take n).length = n ∧ (cs.take n).all isDigitChar then
    some (cs.drop n)
  else
    none

/-- The continuations after an optional single separator character
(regex `[\s.-]?`): consume it or not. -/
def matchOptSep (cs : List Char) : List (List Char) :=
  match cs with
  | [] => [[]]
  | c :: rest => if isSepChar c then [rest, c :: rest] else [c :: rest]

/-- A match of `\d{2}[\s.-]?\d{4,5}[\s.-]?\d{4}` starting at the head of
the list. -/
def phoneFrom (cs : List Char) : Bool :=
  match matchDigits 2 cs with
  | none => false
  | some r1 =>
    (matchOptSep r1).any fun r2 =>
      [5, 4].any fun n =>
        match matchDigits n r2 with
        | none => false
        | some r3 =>
          (matchOptSep r3).any fun r4 => (matchDigits 4 r4).isSome

/-- regex class `[a-zA-Z0-9._%+-]` (email local part). -/
def isLocalChar (c : Char) : Bool :=
  c.isAlpha || c.isDigit || c = '.' || c = '_' || c = '%' || c = '+' || c = '-'

/-- regex class `[a-zA-Z0-9.-]` (email domain part). -/
def isDomainChar (c : Char) : Bool :=
  c.isAlpha || c.isDigit || c = '.' || c = '-'

/-- After the `@`: some parse as `[a-zA-Z0-9.-]+\.[a-zA-Z]{2,}`.
`k` counts the domain characters consumed so far. -/
def emailDomainFrom : List Char → Nat → Bool
  | [], _ => false
  | c :: rs, k =>
    (decide (1 ≤ k) && decide (c = '.') &&
      (match rs with
       | a :: b :: _ => a.isAlpha && b.isAlpha
       | _ => false)) ||
    (isDomainChar c && emailDomainFrom rs (k + 1))

/-- A match of the email pattern starting at the head of the list. -/
def emailFrom (cs : List Char) : Bool :=
  let locals := cs.takeWhile isLocalChar
  match cs.drop locals.length with
  | '@' :: rest => decide (locals ≠ []) && emailDomainFrom rest 0
  | _ => false

/-- A match of `R\$\s?\d` starting at the head of the list. -/
def currencyFrom (cs : List Char) : Bool :=
  match cs with
  | 'R' :: '$' :: rest =>
    (match rest with
     | c :: rest' =>
       if isPySpace c then
         match rest' with
         | d :: _ => isDigitChar d
         | [] => false
       else isDigitChar c
     | [] => false)
  | _ => false

/-- A match of `\d{2}/\d{2}/\d{4}` starting at the head of the list. -/
def dateFrom (cs : List Char) : Bool :=
  match matchDigits 2 cs with
  | some ('/' :: r1) =>
    (match matchDigits 2 r1 with
     | some ('/' :: r2) => (matchDigits 4 r2).isSome
     | _ => false)
  | _ => false

/-- A match of `\d{2}:\d{2}` starting at the head of the list. -/
def timeFrom (cs : List Char) : Bool :=
  match matchDigits 2 cs with
  | some (':' :: r1) => (matchDigits 2 r1).isSome
  | _ => false

/-- Models `re.search(r"\d{2}[\s.-]?\d{4,5}[\s.-]?\d{4}", message)` as a
boolean: a phone-number-like digit run occurs somewhere. -/
def hasPhonePattern (message : String) : Bool :=
  anySuffix phoneFrom message.toList

/-- Models `_has_technical_content` from `utils/media_decision.py`: URL, phone
number, email, currency amount, date or time pattern. -/
def hasTechnicalContent (message : String) : Bool :=
  (strContains message "http://" || strContains message "https://") ||
  hasPhonePattern message ||
  anySuffix emailFrom message.toList ||
  anySuffix currencyFrom message.toList ||
  anySuffix dateFrom message.toList ||
  anySuffix timeFrom message.toList

/-- Models `_is_personal_message`: lowercased message contains one of the
personal/empathetic vocabulary words. -/
def isPersonalMessage (message : String) : Bool :=
  let ml := pyLower message
  ["entendo", "compreendo", "imagino", "sei como",
   "parabéns", "incrível", "ótimo", "legal",
   "obrigad", "agradeço", "prazer",
   "conte comigo", "estou aqui", "pode contar"].any
    (fun w => strContains ml w)

/-- Models `_has_empathy_indicators`: lowercased message contains one of the
empathy phrases. -/
def hasEmpathyIndicators (message : String) : Bool :=
  let ml := pyLower message
  ["sei que", "entendo que", "imagino que",
   "deve ser difícil", "complicado mesmo",
   "te entendo", "faz sentido",
   "você está certo", "concordo"].any
    (fun w => strContains ml w)

/-- Models `_is_spin_question`: contains a question mark and a SPIN question
starter phrase. -/
def isSpinQuestion (message : String) : Bool :=
  if !(strContains message "?") then false
  else
    let ml := pyLower message
    ["como você", "qual é", "quais são",
     "me conta", "me fala", "o que",
     "quanto", "quando", "por que",
     "como funciona", "como está"].any
      (fun w => strContains ml w)

/-- Models `should_use_audio` from `utils/media_decision.py`: the ordered
priority chain deciding voice vs text delivery. -/
def should_use_audio (message : String)
    (is_first_contact is_follow_up has_audio_tag : Bool) : Bool × String :=
  if has_audio_tag || strContains message "[ENVIAR_AUDIO]" then
    (true, "tag_audio")
  else if hasTechnicalContent message then
    (false, "conteudo_tecnico")
  else if pyLen message < 50 then
    (false, "mensagem_curta")
  else if is_first_contact then
    (true, "primeiro_contato")
  else if is_follow_up then
    (true, "follow_up")
  else if decide (pyLen message > 200) && isPersonalMessage message then
    (true, "mensagem_longa_pessoal")
  else if hasEmpathyIndicators message then
    (true, "mensagem_empatica")
  else if isSpinQuestion message then
    (false, "pergunta_spin")
  else
    (false, "default")

/-- The spec's view of the media policy (§4.4): an ordered priority list
of guarded outcomes.  Stated from the spec's words, to be compared with
`should_use_audio`. -/
def mediaRuleList (message : String)
    (is_first_contact is_follow_up has_audio_tag : Bool) :
    List (Bool × Bool × String) :=
  [(has_audio_tag || strContains message "[ENVIAR_AUDIO]", true, "tag_audio"),
   (hasTechnicalContent message, false, "conteudo_tecnico"),
   (decide (pyLen message < 50), false, "mensagem_curta"),
   (is_first_contact, true, "primeiro_contato"),
   (is_follow_up, true, "follow_up"),
   (decide (pyLen message > 200) && isPersonalMessage message, true,
     "mensagem_longa_pessoal"),
   (hasEmpathyIndicators message, true, "mensagem_empatica"),
   (isSpinQuestion message, false, "pergunta_spin")]

/-- First-match-wins evaluation of a guarded rule list, defaulting to
text delivery with reason `"default"`. -/
def firstMatchDecision (rules : List (Bool × Bool × String)) : Bool × String :=
  match rules.find? (·.1) with
  | some r => (r.2.1, r.2.2)
  | none => (false, "default")

/-! ## `services/tag_processor.py` -/

/-- Models `TAG_MAPPING` from `services/tag_processor.py`, in Python dict
insertion order: marker → state updates. -/
def TAG_MAPPING : List (String × List (String × PyVal)) :=
  [("[QUALIFICADO]",
     [("qualificacao", .str "quente"), ("etapa_spin", .str "completo")]),
   ("[NAO_QUALIFICADO]",
     [("qualificacao", .str "frio"), ("etapa_spin", .str "completo")]),
   ("[FOLLOW_UP_24H]", [("follow_up", .bool true)]),
   ("[TRANSFERIR_VENDEDOR]",
     [("transferir", .bool true), ("qualificacao", .str "quente")]),
   ("[ENVIAR_AUDIO]", [("audio", .bool true)])]

/-- Models `ETAPA_KEYWORDS` from `services/tag_processor.py`, in Python dict
insertion order: SPIN stage → keyword list. -/
def ETAPA_KEYWORDS : List (String × List String) :=
  [("situacao", ["o que vocês fazem", "me conta", "qual é o", "como funciona"]),
   ("problema", ["dor de cabeça", "dificuldade", "problema", "gargalo", "incomoda"]),
   ("implicacao", ["continuar assim", "impacto", "perder", "consequência"]),
   ("necessidade", ["se existisse", "ideal", "conectar", "vendedor", "solução"])]

/-- One iteration of the tag loop in `process_tags` (lines 54-58): when
the tag occurs in the response, record it, fold its updates into the
working state, and strip it from the text. -/
def tagPhase (acc : String × PyDict × List String)
    (entry : String × List (String × PyVal)) : String × PyDict × List String :=
  let (resp, st, found) := acc
  if strContains resp entry.1 then
    (pyStrip (pyReplace resp entry.1 ""), dictUpdate st entry.2,
     found ++ [entry.1])
  else
    (resp, st, found)

/-- One attempted match of `\[OBJECAO:\s*([^\]]+)\]` (case-insensitive)
anchored at the head of the list: returns the captured group and the
remainder after the closing bracket.  `body` is everything between the
colon and the first `]`; backtracking of `\s*` against `[^\]]+` means
the capture is `body` minus its leading whitespace when that is
non-empty, and otherwise (an all-whitespace body) just the final
character of `body`. -/
def objMatchAt (cs : List Char) : Option (List Char × List Char) :=
  if (cs.take 9).map Char.toLower = "[objecao:".toList then
    let afterColon := cs.drop 9
    let body := afterColon.takeWhile (fun c => c ≠ ']')
    match afterColon.drop body.length with
    | ']' :: rest =>
      if body = [] then none
      else
        let cap := body.dropWhile isPySpace
        some (if cap = [] then body.drop (body.length - 1) else cap, rest)
    | _ => none
  else
    none

/-- Fuel-driven scan for all (leftmost, non-overlapping) matches of the
objection pattern: returns the captures in order together with the text
with the matches removed.  This computes both the `re.findall` and the
`re.sub` of `process_tags` in one pass. -/
def scanObjecoesAux : Nat → List Char → List (List Char) × List Char
  | 0, cs => ([], cs)
  | _ + 1, [] => ([], [])
  | fuel + 1, c :: cs =>
    match objMatchAt (c :: cs) with
    | some (cap, rest) =>
      let (caps, out) := scanObjecoesAux fuel rest
      (cap :: caps, out)
    | none =>
      let (caps, out) := scanObjecoesAux fuel cs
      (caps, c :: out)

/-- Scan a string for objection markers. -/
def scanObjecoes (s : String) : List String × String :=
  let (caps, out) := scanObjecoesAux s.toList.length s.toList
  (caps.map (fun c => ⟨c⟩), ⟨out⟩)

/-- First SPIN stage (in `ETAPA_KEYWORDS` order) one of whose keywords
occurs in the lowercased clean response; `none` when no keyword
matches.  Models the `for ... break` loop at lines 75-78. -/
def inferEtapa (responseLower : String) : Option String :=
  (ETAPA_KEYWORDS.find?
      (fun e => e.2.any (fun kw => strContains responseLower kw))).map (·.1)

/-- The observable outcome of `process_tags` (lines 50-78 plus the
return at 106): the cleaned text, the working copy of the state after
all updates, the markers found, and the payloads passed to
`supabase_service.add_objecao` in call order.  The CRM
qualification/hand-off side effects (lines 85-104) touch neither the
text nor the state and are outside the modelled slice. -/
structure TagOutcome where
  clean : String
  workingState : PyDict
  tagsFound : List String
  objecaoCalls : List String
deriving DecidableEq, Repr

/-- Models `process_tags` from `services/tag_processor.py`, as a pure function
on the working copy of the state. -/
def processTagsCore (response : String) (current_state : PyDict) : TagOutcome :=
  let (r1, st1, found) := TAG_MAPPING.foldl tagPhase (response, current_state, [])
  let (caps, removed) := scanObjecoes r1
  let r2 := if caps ≠ [] then pyStrip removed else r1
  let calls := (caps.map pyStrip).filter (fun c => c ≠ "")
  let st2 :=
    if found = [] then
      match inferEtapa (pyLower r2) with
      | some etapa => dictSet st1 "etapa_spin" (.str etapa)
      | none => st1
    else st1
  { clean := r2, workingState := st2, tagsFound := found, objecaoCalls := calls }

/-- The `(resposta_limpa, novo_estado ou None)` pair returned by
`process_tags`: the new state is returned only when it differs from the
input state. -/
def process_tags (response : String) (current_state : PyDict) :
    String × Option PyDict :=
  let o := processTagsCore response current_state
  (o.clean, if o.workingState ≠ current_state then some o.workingState else none)

/-- Heap-level rendering of the dict manipulation in `process_tags`:
dicts live at indices of a heap, the caller passes the address of
`current_state`, line 50 allocates a fresh copy, and every subsequent
assignment targets the copy.  Returns the heap after the call, the
clean text, and the address of the returned state (when one is
returned). -/
def process_tags_heap (heap : List PyDict) (response : String) (addr : Nat) :
    List PyDict × String × Option Nat :=
  let cur := heap.getD addr []
  let o := processTagsCore response cur
  let heap' := heap ++ [o.workingState]
  (heap', o.clean, if o.workingState ≠ cur then some heap.length else none)

/-! ## `services/supabase_service.py` (`add_objecao`) -/

/-- The objection-list mutation performed by
`SupabaseService.add_objecao` (lines 230-247) for an existing lead:
skip when an existing objection has the same lowercased, stripped text,
otherwise append the stripped payload. -/
def add_objecao (objecoes : List String) (objecao : String) : List String :=
  let objecaoLower := pyStrip (pyLower objecao)
  if objecoes.any (fun o => pyStrip (pyLower o) = objecaoLower) then
    objecoes
  else
    objecoes ++ [pyStrip objecao]

/-! ## `services/redis_service.py` (lead state) -/

/-- The per-key string store behind the lead-state calls, with values
already JSON-decoded to dicts. -/
abbrev Store := List (String × PyDict)

/-- Models `GET key` followed by `json.loads`. -/
def storeGet (store : Store) (k : String) : Option PyDict :=
  (store.find? (fun p => p.1 = k)).map (·.2)

/-- Models `SET key value`: overwrite or create. -/
def storeSet (store : Store) (k : String) (d : PyDict) : Store :=
  if (store.find? (fun p => p.1 = k)).isSome then
    store.map (fun p => if p.1 = k then (k, d) else p)
  else
    store ++ [(k, d)]

/-- Models `set_lead_state` (line 225-228): always writes under the literal
supplied sender key. -/
def set_lead_state (store : Store) (sender : String) (state : PyDict) : Store :=
  storeSet store (sender ++ "_state") state

/-- Python truthiness of `state_dict and state_dict.get("segmento")`:
a non-empty dict whose `segmento` value is truthy. -/
def isCompleteState (d : PyDict) : Bool :=
  decide (d ≠ []) &&
    (match dictGet d "segmento" with
     | some v => v.truthy
     | none => false)

/-- Models `get_lead_state` (lines 230-271): try the literal key; when the
stored record is not complete, try the alternate Brazilian phone-number
encoding (insert a `9` after the area code for 12-digit numbers
starting `55`, strip it for 13-digit numbers starting `55` with `9` in
position 5) and prefer the alternate record when it is complete. -/
def get_lead_state (store : Store) (sender : String) : Option PyDict :=
  let stateDict := storeGet store (sender ++ "_state")
  if (match stateDict with | some d => isCompleteState d | none => false) then
    stateDict
  else
    let digits := (pyReplace sender "@s.whatsapp.net" "").toList
    let altDict : Option PyDict :=
      if digits.length = 12 ∧ ['5', '5'].isPrefixOf digits then
        storeGet store
          (⟨['5', '5'] ++ (digits.drop 2).take 2 ++ ['9'] ++ digits.drop 4⟩
            ++ "@s.whatsapp.net_state")
      else if digits.length = 13 ∧ ['5', '5'].isPrefixOf digits ∧
          digits.getD 4 ' ' = '9' then
        storeGet store
          (⟨['5', '5'] ++ (digits.drop 2).take 2 ++ digits.drop 5⟩
            ++ "@s.whatsapp.net_state")
      else none
    match altDict with
    | some ad => if isCompleteState ad then some ad else stateDict
    | none => stateDict

/-- The spec's completeness notion: the record "has `segmento` set"
(a truthy `segmento` value). -/
def hasSegmentoSet (d : PyDict) : Bool :=
  match dictGet d "segmento" with
  | some v => v.truthy
  | none => false

/-- Lead-state lookup as the (amended) spec sentence describes it:
return the record under the literal key if it has `segmento` set;
otherwise compute the alternate encoding — for exactly 12 digits
starting `55` insert a `9` after the 4th digit, for exactly 13 digits
starting `55` with `9` at position 5 strip that digit — and return the
alternate record only when it has `segmento` set, else the original
record (possibly none).  Stated from the spec's words, to be compared
with `get_lead_state`. -/
def leadLookupSpec (store : Store) (sender : String) : Option PyDict :=
  let primary := storeGet store (sender ++ "_state")
  let primaryComplete :=
    match primary with
    | some d => hasSegmentoSet d
    | none => false
  if primaryComplete then primary
  else
    let digits := (pyReplace sender "@s.whatsapp.net" "").toList
    let altKey : Option String :=
      if digits.length = 12 ∧ ['5', '5'].isPrefixOf digits then
        some (⟨digits.take 4 ++ ['9'] ++ digits.drop 4⟩ ++ "@s.whatsapp.net")
      else if digits.length = 13 ∧ ['5', '5'].isPrefixOf digits ∧
          digits.getD 4 ' ' = '9' then
        some (⟨digits.take 4 ++ digits.drop 5⟩ ++ "@s.whatsapp.net")
      else none
    match altKey with
    | some k =>
      match storeGet store (k ++ "_state") with
      | some ad => if hasSegmentoSet ad then some ad else primary
      | none => primary
    | none => primary

/-! ## `services/message_processor.py` — debounce engine

One sender is modelled, at two levels.  `DbState` and `fire` model a
single cycle of `debounce_handler` (lines 138-172): what one armed
timer does when its quiet-window sleep ends, as an event trace
recording the order of the side-effecting steps.  The `_debounce_tasks`
bookkeeping of `_process_with_debounce` across a whole burst —
including the `finally` clause (lines 178-180), which deletes whatever
task is currently registered under the sender, not necessarily the
finishing task itself — is modelled separately by `LoopState` and
`loopStep` below.  Response delivery (`_send_response`, line 172) is
opaque in both models: its internals (media decision, splitting, echo
registry, assistant history entry) touch neither the debounce buffer
nor the `user` history entry. -/

/-- A conversation-history entry: role and content. -/
abbrev HistEntry := String × String

/-- Trace events of one debounce cycle. -/
inductive DbEvent where
  /-- Models `redis_service.clear_buffer` (line 151). -/
  | clearBuffer
  /-- Models `on_message(consolidated)` (line 165); records the consolidated
  text and the conversation history visible to the handler at call
  time. -/
  | handlerCall (text : String) (historyAtCall : List HistEntry)
  /-- Models `redis_service.add_to_history` (line 168). -/
  | historyAppend (role : String) (content : String)
  /-- Models `_send_response` (line 172), opaque. -/
  | sendResponse (resp : String)
deriving DecidableEq, Repr

/-- Debounce-relevant state for one sender: the Redis buffer, the
fragment that armed the live timer task (none when no task is pending),
and the conversation history. -/
structure DbState where
  buffer : List String
  pending : Option String
  history : List HistEntry
deriving DecidableEq, Repr

/-- The `DbState` reached when a fragment has been appended to the
buffer (line 131) and the task created for it (line 182) is the armed
timer under consideration.  This fixes one armed task for per-fire
reasoning; whether the earlier tasks of a burst were actually cancelled
is a separate question, answered by the `LoopState` model below. -/
def submit (s : DbState) (frag : String) : DbState :=
  { buffer := s.buffer ++ [frag], pending := some frag, history := s.history }

/-- Expiry of the armed timer: the body of `debounce_handler`.  The
guard (line 146) re-checks that the buffer's last entry is non-empty
and still contains the fragment that armed this timer; only then does
it join the buffer with single spaces, clear it, call the handler, and
append the consolidated text to history as a `user` turn. -/
def fire (handler : List HistEntry → String → Option String) (s : DbState) :
    DbState × List DbEvent :=
  match s.pending with
  | none => (s, [])
  | some armed =>
    match s.buffer.getLast? with
    | none => ({ s with pending := none }, [])
    | some lastMsg =>
      if lastMsg ≠ "" ∧ listContainsSub lastMsg.toList armed.toList then
        let full := String.intercalate " " s.buffer
        let resp := handler s.history full
        ({ buffer := [], pending := none,
           history := s.history ++ [("user", full)] },
         [DbEvent.clearBuffer, DbEvent.handlerCall full s.history,
          DbEvent.historyAppend "user" full] ++
           (match resp with
            | some r => [DbEvent.sendResponse r]
            | none => []))
      else
        ({ s with pending := none }, [])

/-- Recogniser for handler-call events. -/
def isHandlerCallEv : DbEvent → Bool
  | .handlerCall _ _ => true
  | _ => false

/-- Recogniser for `user`-role history-append events. -/
def isUserAppendEv : DbEvent → Bool
  | .historyAppend r _ => r = "user"
  | _ => false

/-! ## `services/message_processor.py` — task bookkeeping across a burst

The module-level dict `_debounce_tasks` (line 21) maps each sender to
one `asyncio.Task`.  `_process_with_debounce` (lines 122-182) appends
the fragment to the buffer, cancels the task currently registered for
the sender if any (lines 134-135), then creates a new task and
registers it (line 182).  Whenever any task finishes — after its timer
body, after a caught exception, or after the `CancelledError` raised by
a cancellation — its `finally` clause (lines 178-180) deletes the
sender's registry entry if one exists, whichever task that entry holds
by then.  The model below replays these cooperative event-loop steps
for one sender, with time in seconds. -/

/-- Models one `asyncio.Task` running `debounce_handler`: the
`message.text` captured by the closure, the instant its
`asyncio.sleep` ends, whether `cancel()` has been requested on it
(line 135) and whether it has run to completion. -/
structure DbTask where
  armedText : String
  expiry : Nat
  cancelRequested : Bool
  finished : Bool
deriving DecidableEq, Repr

/-- Event-loop state for one sender across a burst: the Redis debounce
buffer, every task created so far (by id), the sender's
`_debounce_tasks` entry, the conversation history, and the consolidated
texts the dialogue handler has been invoked with, in order. -/
structure LoopState where
  buffer : List String
  tasks : List (Nat × DbTask)
  entry : Option Nat
  history : List HistEntry
  handlerCalls : List String
  nextId : Nat
deriving DecidableEq, Repr

/-- The state before any fragment arrives. -/
def initLoop : LoopState :=
  { buffer := [], tasks := [], entry := none, history := [],
    handlerCalls := [], nextId := 0 }

/-- Look up a task by id. -/
def getTask (s : LoopState) (tid : Nat) : Option DbTask :=
  (s.tasks.find? (fun p => p.1 = tid)).map (·.2)

/-- Update a task by id. -/
def setTask (s : LoopState) (tid : Nat) (f : DbTask → DbTask) : LoopState :=
  { s with tasks := s.tasks.map (fun p => if p.1 = tid then (p.1, f p.2) else p) }

/-- Models the `finally` clause (lines 178-180):
`if sender in _debounce_tasks: del _debounce_tasks[sender]` — it
deletes whatever task is currently registered for the sender, which
need not be the task that is finishing. -/
def finallyDelete (s : LoopState) : LoopState :=
  match s.entry with
  | some _ => { s with entry := none }
  | none => s

/-- Cooperative event-loop steps touching one sender's debounce
machinery, each atomic on the single-threaded loop. -/
inductive LoopOp where
  /-- Models `_process_with_debounce` running at time `t` for an inbound
  fragment. -/
  | submit (t : Nat) (frag : String)
  /-- The loop resumes task `tid` with the `CancelledError` raised by a
  prior `cancel()`: the handler's `except asyncio.CancelledError: pass`
  swallows it and the `finally` clause runs. -/
  | deliverCancel (t : Nat) (tid : Nat)
  /-- Task `tid`'s `asyncio.sleep` elapses at `t` without a pending
  cancellation: the timer body (lines 142-172) runs, then the `finally`
  clause. -/
  | fireTimer (t : Nat) (tid : Nat)
deriving DecidableEq, Repr

/-- The loop time at which an operation happens. -/
def opTime : LoopOp → Nat
  | .submit t _ => t
  | .deliverCancel t _ => t
  | .fireTimer t _ => t

/-- One event-loop step.  A `deliverCancel` is a no-op unless the task
exists, has a pending cancellation, is unfinished and its sleep has not
yet elapsed; a `fireTimer` is a no-op unless the task exists, is
uncancelled, unfinished and `t` is exactly its expiry — so a schedule
cannot make the model do anything the runtime would not. -/
def loopStep (window : Nat) (s : LoopState) : LoopOp → LoopState
  | .submit t frag =>
    let s1 := { s with buffer := s.buffer ++ [frag] }
    let s2 :=
      match s1.entry with
      | some tid => setTask s1 tid (fun tk => { tk with cancelRequested := true })
      | none => s1
    { s2 with
      tasks := s2.tasks ++
        [(s2.nextId,
          { armedText := frag, expiry := t + window,
            cancelRequested := false, finished := false })],
      entry := some s2.nextId,
      nextId := s2.nextId + 1 }
  | .deliverCancel t tid =>
    match getTask s tid with
    | some tk =>
      if tk.cancelRequested ∧ ¬tk.finished ∧ t ≤ tk.expiry then
        finallyDelete (setTask s tid (fun tk => { tk with finished := true }))
      else s
    | none => s
  | .fireTimer t tid =>
    match getTask s tid with
    | some tk =>
      if ¬tk.cancelRequested ∧ ¬tk.finished ∧ t = tk.expiry then
        let s1 :=
          match s.buffer.getLast? with
          | some lastMsg =>
            if lastMsg ≠ "" ∧
                listContainsSub lastMsg.toList tk.armedText.toList then
              let full := String.intercalate " " s.buffer
              { s with buffer := [],
                       handlerCalls := s.handlerCalls ++ [full],
                       history := s.history ++ [("user", full)] }
            else s
          | none => s
        finallyDelete (setTask s1 tid (fun tk => { tk with finished := true }))
      else s
    | none => s

/-- Run a schedule of event-loop steps. -/
def runLoop (window : Nat) (ops : List LoopOp) (s : LoopState) : LoopState :=
  ops.foldl (loopStep window) s

/-- Check that a list of times is non-decreasing. -/
def monotoneTimes : List Nat → Bool
  | a :: b :: rest => decide (a ≤ b) && monotoneTimes (b :: rest)
  | _ => true

/-- The arrival times of the submit operations of a schedule. -/
def submitTimesOf (ops : List LoopOp) : List Nat :=
  ops.filterMap (fun op =>
    match op with
    | .submit t _ => some t
    | _ => none)

/-- Check that consecutive times are less than `w` apart. -/
def gapsWithin (w : Nat) : List Nat → Bool
  | a :: b :: rest => decide (b - a < w) && gapsWithin w (b :: rest)
  | _ => true

/-! ## `services/message_processor.py` — webhook filters -/

/-- The message types of `models/message.py`. -/
inductive MsgType where
  | conversation
  | extendedText
  | audio
  | image
  | document
deriving DecidableEq, Repr

/-- The slice of the Evolution webhook that `process_webhook` reads:
sender, `fromMe` flag, the result of `get_text_content()` and the
message type. -/
structure Webhook where
  sender : String
  isFromMe : Bool
  textContent : Option String
  msgType : MsgType
deriving DecidableEq, Repr

/-- Models `is_ai_message` (lines 100-104): the inbound text, with newlines
replaced by spaces and stripped, occurs inside some registered outbound
message of the sender. -/
def is_ai_message (aiMessages : List String) (message : String) : Bool :=
  let messageClean := pyStrip (pyReplace message "\n" " ")
  aiMessages.any (fun m => listContainsSub m.toList messageClean.toList)

/-- Models `_extract_message_content` (lines 79-120): text types return the
webhook text, audio returns the transcription (an oracle here, since it
is an external call), image and document are unimplemented. -/
def extractMessageContent (transcription : Option String) (w : Webhook) :
    Option String :=
  match w.msgType with
  | .conversation => w.textContent
  | .extendedText => w.textContent
  | .audio => transcription
  | .image => none
  | .document => none

/-- Models `process_webhook` (lines 30-77) up to the point where the fragment
enters the debounce buffer: the four pre-consolidation filters in
order, with short-circuit, then the buffer append of
`_process_with_debounce`.  Returns the processed flag and the updated
per-sender buffers. -/
def process_webhook (aiMessages : String → List String)
    (blocked : String → Bool) (buffers : String → List String)
    (transcription : Option String) (w : Webhook) :
    Bool × (String → List String) :=
  if w.isFromMe then (false, buffers)
  else if (match w.textContent with
           | some t => t ≠ "" && is_ai_message (aiMessages w.sender) t
           | none => false) then (false, buffers)
  else if blocked w.sender then (false, buffers)
  else
    match extractMessageContent transcription w with
    | none => (false, buffers)
    | some t =>
      if t = "" then (false, buffers)
      else
        (true,
         fun snd => if snd = w.sender then buffers snd ++ [t] else buffers snd)

/-! ## `services/followup_service.py` -/

/-- The three send periods. -/
inductive Period where
  | morning
  | afternoon
  | night
deriving DecidableEq, Repr

/-- The follow-up record (`schedule_followup` fields); `lastSent`
stores only the calendar date, because `_check_and_send_followup`
compares `last_sent` with `now` through `.date()`. -/
structure FState where
  nome : String
  segmento : String
  attempts : Nat
  startedAt : Nat
  lastSent : Option Nat
  lastPeriod : Option Period
  cancelled : Bool
  lastMessage : Option String
deriving DecidableEq, Repr

/-- Models `_get_current_period` (lines 91-100): one-hour windows at 9h, 14h
and 19h local time. -/
def get_current_period (hour : Nat) : Option Period :=
  if 9 ≤ hour ∧ hour < 10 then some .morning
  else if 14 ≤ hour ∧ hour < 15 then some .afternoon
  else if 19 ≤ hour ∧ hour < 20 then some .night
  else none

/-- Models `MAX_FOLLOWUP_ATTEMPTS`. -/
def MAX_FOLLOWUP_ATTEMPTS : Nat := 9

/-- Models `schedule_followup` (lines 207-228). -/
def schedule_followup (nome segmento : String) (today : Nat) : FState :=
  { nome := nome, segmento := segmento, attempts := 0, startedAt := today,
    lastSent := none, lastPeriod := none, cancelled := false,
    lastMessage := none }

/-- Models `cancel_followup` (lines 230-239) on an existing record. -/
def cancelFS (st : FState) : FState := { st with cancelled := true }

/-- Models `_send_followup_message` (lines 130-205) in the sequential model:
the double-check and the final check re-read the same record, so they
reduce to the `cancelled` test; a generation failure (`gen = none`)
aborts without mutating the record; a successful send bumps `attempts`
and records `last_sent`, `last_period` and `last_message`.  Returns the
updated record and whether a send happened.  Audio-vs-text delivery
(line 178) does not affect the record. -/
def send_followup_message (st : FState) (period : Period) (today : Nat)
    (gen : Option String) : FState × Bool :=
  if st.cancelled then (st, false)
  else
    let attempts := st.attempts + 1
    match gen with
    | none => (st, false)
    | some msg =>
      ({ st with attempts := attempts, lastSent := some today,
                 lastPeriod := some period, lastMessage := some msg },
       true)

/-- Models `_check_and_send_followup` (lines 102-128): missing record → no-op;
attempts at the cap → cancel instead of sending; cancelled → no-op;
already sent in this period today → no-op; otherwise send. -/
def check_and_send_followup (s : Option FState) (period : Period)
    (today : Nat) (gen : Option String) : Option FState × Bool :=
  match s with
  | none => (none, false)
  | some st =>
    if st.attempts ≥ MAX_FOLLOWUP_ATTEMPTS then (some (cancelFS st), false)
    else if st.cancelled then (some st, false)
    else if (match st.lastSent with
             | some d => decide (d = today) && decide (st.lastPeriod = some period)
             | none => false) then (some st, false)
    else
      let (st', sent) := send_followup_message st period today gen
      (some st', sent)

/-- One operation touching a lead's follow-up record: a scheduler wake
(hour, date and the outcome of message generation) or a reply/admin
cancellation. -/
inductive FOp where
  | wake (hour today : Nat) (gen : Option String)
  | cancel
deriving DecidableEq, Repr

/-- One step of the follow-up state machine.  A wake outside the three
send windows does nothing (`_process_pending_followups` returns before
touching any lead). -/
def fstep (s : Option FState) : FOp → Option FState × Bool
  | .wake hour today gen =>
    match get_current_period hour with
    | none => (s, false)
    | some period => check_and_send_followup s period today gen
  | .cancel => (s.map cancelFS, false)

/-- Run a sequence of operations. -/
def frun (s : Option FState) (ops : List FOp) : Option FState :=
  ops.foldl (fun acc op => (fstep acc op).1) s

/-- Number of sends performed along a run. -/
def sentCount (s : Option FState) : List FOp → Nat
  | [] => 0
  | op :: ops =>
    (if (fstep s op).2 then 1 else 0) + sentCount (fstep s op).1 ops

/-- Models `attempts` of an optional record (0 when absent). -/
def attemptsOf : Option FState → Nat
  | none => 0
  | some st => st.attempts

/-- Models `cancelled` of an optional record (true when absent: an absent
record can never send). -/
def cancelledOf : Option FState → Bool
  | none => true
  | some st => st.cancelled

/-! ## Helper lemmas -/

theorem hasTechnicalContent_of_phone {message : String}
    (h : hasPhonePattern message = true) : hasTechnicalContent message = true := by
  unfold hasTechnicalContent
  simp [h]

/-! ## C10 -/

/-- C10: `should_use_audio` returns `(true, "tag_audio")` whenever the
literal substring `[ENVIAR_AUDIO]` occurs in the message text, even
when the `has_audio_tag` flag is `false`, bypassing every later rule of
the chain. -/
theorem audio_tag_in_body_forces_audio (message : String)
    (is_first_contact is_follow_up : Bool)
    (h : strContains message "[ENVIAR_AUDIO]" = true) :
    should_use_audio message is_first_contact is_follow_up false =
      (true, "tag_audio") := by
  unfold should_use_audio
  simp [h]

/-- Witness for C10: a short first-contact-style message with a phone
number still goes out as audio because the tag occurs in its body. -/
theorem audio_tag_in_body_forces_audio_witness :
    strContains "liga 11 99999-8888 [ENVIAR_AUDIO]" "[ENVIAR_AUDIO]" = true ∧
    should_use_audio "liga 11 99999-8888 [ENVIAR_AUDIO]" true false false =
      (true, "tag_audio") :=
  ⟨by decide,
   audio_tag_in_body_forces_audio "liga 11 99999-8888 [ENVIAR_AUDIO]" true false
     (by decide)⟩

/-! ## C4 -/

/-- C4: the media decision evaluates its rules in the fixed priority
order (explicit audio tag, technical content, short message, first
contact, follow-up, long personal message, empathy phrases, SPIN
question, default text) with first match winning — `should_use_audio`
coincides with first-match-wins evaluation of the spec's ordered rule
list — and in particular every message containing a phone-number-like
digit run and no audio tag yields `(false, "conteudo_tecnico")` even
with `is_first_contact = true`, not `(true, "primeiro_contato")`. -/
theorem media_decision_priority_order (message : String)
    (is_first_contact is_follow_up has_audio_tag : Bool) :
    should_use_audio message is_first_contact is_follow_up has_audio_tag =
      firstMatchDecision
        (mediaRuleList message is_first_contact is_follow_up has_audio_tag) ∧
    (strContains message "[ENVIAR_AUDIO]" = false →
      hasPhonePattern message = true →
      should_use_audio message true is_follow_up false =
        (false, "conteudo_tecnico")) := by
  constructor
  · unfold should_use_audio firstMatchDecision mediaRuleList
    cases h1 : (has_audio_tag || strContains message "[ENVIAR_AUDIO]") <;>
      cases h2 : hasTechnicalContent message <;>
      by_cases h3 : pyLen message < 50 <;>
      cases is_first_contact <;>
      cases is_follow_up <;>
      cases h6 : (decide (pyLen message > 200) && isPersonalMessage message) <;>
      cases h7 : hasEmpathyIndicators message <;>
      cases h8 : isSpinQuestion message <;>
      simp [h1, h2, h3, h6, h7, h8, List.find?]
  · intro hTag hPhone
    unfold should_use_audio
    simp [hTag, hasTechnicalContent_of_phone hPhone]

/-- Witness for C4: a first-contact message carrying a phone number is
sent as text with reason `conteudo_tecnico`. -/
theorem media_decision_priority_order_witness :
    (strContains "me chama no 11 99999-8888" "[ENVIAR_AUDIO]" = false ∧
     hasPhonePattern "me chama no 11 99999-8888" = true) ∧
    should_use_audio "me chama no 11 99999-8888" true false false =
      (false, "conteudo_tecnico") :=
  ⟨⟨by decide, by decide⟩,
   (media_decision_priority_order "me chama no 11 99999-8888" true false false).2
     (by decide) (by decide)⟩

/-! ## C3 -/

/-- The agent response of the C3 round-trip scenario. -/
def c3Response : String :=
  "Perfeito! [QUALIFICADO] Vou agendar. [OBJECAO: Preço/Orçamento]"

/-- The lead state before the C3 round-trip scenario. -/
def c3State0 : PyDict :=
  [("nome", PyVal.str "Joao"), ("etapa_spin", PyVal.str "situacao")]

/-- C3: processing a response containing `[QUALIFICADO]` and
`[OBJECAO: Preço/Orçamento]` yields clean text with both markers
removed and a returned state with `qualificacao = "quente"` and
`etapa_spin = "completo"`; the CRM ends up with exactly one objection,
re-processing the same raw response adds no second objection, and in
general `add_objecao` skips any objection whose trimmed case-folded
text equals an existing one. -/
theorem tag_roundtrip_and_objecao_dedup :
    (strContains (process_tags c3Response c3State0).1 "[QUALIFICADO]" = false ∧
     strContains (process_tags c3Response c3State0).1 "[OBJECAO" = false) ∧
    ((process_tags c3Response c3State0).2 =
       some [("nome", PyVal.str "Joao"), ("etapa_spin", PyVal.str "completo"),
             ("qualificacao", PyVal.str "quente")] ∧
     dictGet ((process_tags c3Response c3State0).2.getD []) "qualificacao" =
       some (PyVal.str "quente") ∧
     dictGet ((process_tags c3Response c3State0).2.getD []) "etapa_spin" =
       some (PyVal.str "completo")) ∧
    (processTagsCore c3Response c3State0).objecaoCalls.foldl add_objecao [] =
      ["Preço/Orçamento"] ∧
    (processTagsCore c3Response
        (processTagsCore c3Response c3State0).workingState).objecaoCalls.foldl
      add_objecao ["Preço/Orçamento"] = ["Preço/Orçamento"] ∧
    (∀ (objs : List String) (objecao x : String), x ∈ objs →
      pyStrip (pyLower x) = pyStrip (pyLower objecao) →
      add_objecao objs objecao = objs) := by
  refine ⟨by decide, by decide, by decide, by decide, ?_⟩
  intro objs objecao x hx hfold
  unfold add_objecao
  have hanym : objs.any (fun o => pyStrip (pyLower o) = pyStrip (pyLower objecao)) = true :=
    List.any_eq_true.mpr ⟨x, hx, by simp [hfold]⟩
  simp only [hanym, if_true]

/-- Witness for C3's dedup clause: an objection differing from a
recorded one only by ASCII case and surrounding whitespace is
skipped. -/
theorem tag_roundtrip_and_objecao_dedup_witness :
    ("Preço/Orçamento" ∈ ["Preço/Orçamento"] ∧
     pyStrip (pyLower "Preço/Orçamento") = pyStrip (pyLower "  preço/ORçamento ")) ∧
    add_objecao ["Preço/Orçamento"] "  preço/ORçamento " = ["Preço/Orçamento"] :=
  ⟨⟨by decide, by decide⟩,
   tag_roundtrip_and_objecao_dedup.2.2.2.2 ["Preço/Orçamento"]
     "  preço/ORçamento " "Preço/Orçamento" (by decide) (by decide)⟩

/-! ## C9 -/

/-- C9: `process_tags` works on a copy of `current_state` and never
mutates the caller's mapping — after the call the value at the caller's
address is unchanged, any returned state lives at a distinct address,
and `None` is returned exactly when the working copy ended up equal to
the input state. -/
theorem process_tags_no_mutation (heap : List PyDict) (response : String)
    (addr : Nat) (h : addr < heap.length) :
    (process_tags_heap heap response addr).1[addr]? = heap[addr]? ∧
    (∀ n, (process_tags_heap heap response addr).2.2 = some n → n ≠ addr) ∧
    ((process_tags_heap heap response addr).2.2 = none ↔
      (processTagsCore response (heap.getD addr [])).workingState =
        heap.getD addr []) := by
  unfold process_tags_heap
  dsimp only
  refine ⟨?_, ?_, ?_⟩
  · rw [List.getElem?_append]
    simp [h]
  · intro n hn
    rcases Decidable.em
        ((processTagsCore response (heap.getD addr [])).workingState ≠
          heap.getD addr []) with hne | hne
    · rw [if_pos hne] at hn
      cases hn
      exact Nat.ne_of_gt h
    · rw [if_neg hne] at hn
      cases hn
  · rcases Decidable.em
        ((processTagsCore response (heap.getD addr [])).workingState =
          heap.getD addr []) with heq | hne
    · rw [if_neg (fun hcon => hcon heq)]
      simp only [true_iff]
      simpa [List.getD_eq_getElem?_getD] using heq
    · rw [if_pos hne]
      simp only [reduceCtorEq, false_iff]
      simpa [List.getD_eq_getElem?_getD] using hne

/-- Witness for C9 at a concrete heap and response. -/
theorem process_tags_no_mutation_witness :
    (process_tags_heap [[("nome", PyVal.str "Joao")]] "tudo certo" 0).1[0]? =
      some [("nome", PyVal.str "Joao")] :=
  ((process_tags_no_mutation [[("nome", PyVal.str "Joao")]] "tudo certo" 0
      (by decide)).1).trans (by decide)

/-! ## C5 -/

theorem find?_fst_map_update {α : Type} (l : List (String × α))
    (k k' : String) (v : α) (h : k' ≠ k) :
    (l.map (fun p => if p.1 = k then (k, v) else p)).find?
        (fun p => p.1 = k') =
      l.find? (fun p => p.1 = k') := by
  induction l with
  | nil => rfl
  | cons p ps ih =>
    simp only [List.map_cons]
    by_cases hp : p.1 = k
    · have h1 : (decide ((if p.1 = k then (k, v) else p).1 = k')) = false := by
        rw [if_pos hp]
        exact decide_eq_false fun hh => h hh.symm
      have h2 : (decide (p.1 = k')) = false := by
        rw [hp]
        exact decide_eq_false fun hh => h hh.symm
      simp [List.find?, h1, h2, ih]
    · have h1 : (if p.1 = k then (k, v) else p) = p := if_neg hp
      rw [h1]
      by_cases hpk : p.1 = k'
      · simp [List.find?, hpk]
      · simp [List.find?, hpk, ih]

theorem find?_fst_map_update_self {α : Type} (l : List (String × α))
    (k : String) (v : α)
    (h : (l.find? (fun p => p.1 = k)).isSome = true) :
    (l.map (fun p => if p.1 = k then (k, v) else p)).find?
        (fun p => p.1 = k) = some (k, v) := by
  induction l with
  | nil => simp [List.find?] at h
  | cons p ps ih =>
    simp only [List.map_cons]
    by_cases hp : p.1 = k
    · have h1 : (if p.1 = k then (k, v) else p) = (k, v) := if_pos hp
      rw [h1]
      simp [List.find?]
    · have h1 : (if p.1 = k then (k, v) else p) = p := if_neg hp
      rw [h1]
      have h' : (ps.find? (fun p => p.1 = k)).isSome = true := by
        simpa [List.find?, hp] using h
      simp [List.find?, hp, ih h']

theorem storeGet_storeSet (store : Store) (k k' : String) (d : PyDict) :
    storeGet (storeSet store k d) k' =
      if k' = k then some d else storeGet store k' := by
  unfold storeGet storeSet
  by_cases hex : (store.find? (fun p => p.1 = k)).isSome = true
  · rw [if_pos hex]
    by_cases hk : k' = k
    · subst hk
      rw [if_pos rfl, find?_fst_map_update_self store k' d hex]
      rfl
    · rw [if_neg hk, find?_fst_map_update store k k' d hk]
  · rw [if_neg hex]
    have hnone : store.find? (fun p => p.1 = k) = none := by
      cases hfind : store.find? (fun p => p.1 = k) with
      | none => rfl
      | some q => rw [hfind] at hex; simp at hex
    by_cases hk : k' = k
    · subst hk
      rw [if_pos rfl, List.find?_append, hnone]
      simp [List.find?]
    · rw [if_neg hk, List.find?_append]
      have hkk : (decide (k = k')) = false :=
        decide_eq_false fun hh => hk hh.symm
      have : List.find? (fun p => p.1 = k') [(k, d)] = none := by
        simp [List.find?, hkk]
      rw [this, Option.or_none]

/-- The store of the C5 counterexample: only the claim's alternate key
(the 13-digit key with the `9` at position 5 stripped) holds a complete
record. -/
def c5Store : Store :=
  [("123467890123@s.whatsapp.net_state", [("segmento", PyVal.str "estetica")])]

/-- The sender of the C5 counterexample: 13 digits, `9` at position 5,
but not starting with country code `55`. -/
def c5Sender : String := "1234967890123@s.whatsapp.net"

/-- Counterexample to C5 as stated: for a sender key whose digit string
has 13 digits with `9` at position 5 but does not start with `55`, the
claim prescribes trying the alternate key with that digit stripped and
returning its complete record, yet `get_lead_state` never computes the
alternate (the code additionally requires the `55` country-code prefix)
and returns nothing. -/
theorem lead_lookup_13_digit_needs_55 :
    ((pyReplace c5Sender "@s.whatsapp.net" "").toList.length = 13 ∧
     (pyReplace c5Sender "@s.whatsapp.net" "").toList.getD 4 ' ' = '9' ∧
     (pyReplace c5Sender "@s.whatsapp.net" "").toList.all Char.isDigit = true ∧
     storeGet c5Store
       ("123467890123@s.whatsapp.net" ++ "_state") =
         some [("segmento", PyVal.str "estetica")] ∧
     storeGet c5Store (c5Sender ++ "_state") = none) ∧
    get_lead_state c5Store c5Sender = none := by
  constructor
  · refine ⟨by decide, by decide, by decide, by decide, by decide⟩
  · decide

theorem isCompleteState_eq (d : PyDict) :
    isCompleteState d = hasSegmentoSet d := by
  cases d with
  | nil => simp [isCompleteState, hasSegmentoSet, dictGet, List.find?]
  | cons p ps => simp [isCompleteState, hasSegmentoSet]

theorem string_mk_append_append (l : List Char) (a b : String) :
    ((⟨l⟩ : String) ++ a) ++ b = (⟨l⟩ : String) ++ (a ++ b) :=
  String.append_assoc _ _ _

/-- C5 (amended): lead-state lookup coincides, on every store and every
sender key, with the spec's description once the 13-digit alternate
rule also requires the leading `55`; and `set_lead_state` always writes
under the literal supplied key, leaving every other key untouched. -/
theorem lead_lookup_reconciliation (store : Store) (sender : String)
    (st : PyDict) (k : String) :
    get_lead_state store sender = leadLookupSpec store sender ∧
    storeGet (set_lead_state store sender st) k =
      (if k = sender ++ "_state" then some st else storeGet store k) := by
  constructor
  · unfold get_lead_state leadLookupSpec
    dsimp only
    have hcond :
        (match storeGet store (sender ++ "_state") with
         | some d => isCompleteState d
         | none => false) =
        (match storeGet store (sender ++ "_state") with
         | some d => hasSegmentoSet d
         | none => false) := by
      cases storeGet store (sender ++ "_state") <;> simp [isCompleteState_eq]
    rw [hcond]
    by_cases hmain :
        (match storeGet store (sender ++ "_state") with
         | some d => hasSegmentoSet d
         | none => false) = true
    · rw [if_pos hmain, if_pos hmain]
    · rw [if_neg hmain, if_neg hmain]
      by_cases h12 :
          (pyReplace sender "@s.whatsapp.net" "").toList.length = 12 ∧
            (['5', '5'] : List Char).isPrefixOf
              (pyReplace sender "@s.whatsapp.net" "").toList
      · rw [if_pos h12, if_pos h12]
        dsimp only
        obtain ⟨t, ht⟩ := List.isPrefixOf_iff_prefix.mp h12.2
        have hkey :
            ((⟨(pyReplace sender "@s.whatsapp.net" "").toList.take 4 ++ ['9'] ++
                (pyReplace sender "@s.whatsapp.net" "").toList.drop 4⟩ : String) ++
              "@s.whatsapp.net") ++ "_state" =
            (⟨['5', '5'] ++
                ((pyReplace sender "@s.whatsapp.net" "").toList.drop 2).take 2 ++
                ['9'] ++
                (pyReplace sender "@s.whatsapp.net" "").toList.drop 4⟩ : String) ++
              "@s.whatsapp.net_state" := by
          rw [string_mk_append_append]
          rw [show ("@s.whatsapp.net" ++ "_state" : String) = "@s.whatsapp.net_state"
            from by decide]
          apply congrArg (· ++ "@s.whatsapp.net_state")
          apply congrArg String.mk
          rw [← ht]
          simp
        rw [hkey]
        cases storeGet store
            ((⟨['5', '5'] ++
                ((pyReplace sender "@s.whatsapp.net" "").toList.drop 2).take 2 ++
                ['9'] ++
                (pyReplace sender "@s.whatsapp.net" "").toList.drop 4⟩ : String) ++
              "@s.whatsapp.net_state") with
        | none => rfl
        | some ad =>
          dsimp only
          rw [isCompleteState_eq]
      · rw [if_neg h12, if_neg h12]
        by_cases h13 :
            (pyReplace sender "@s.whatsapp.net" "").toList.length = 13 ∧
              (['5', '5'] : List Char).isPrefixOf
                (pyReplace sender "@s.whatsapp.net" "").toList ∧
              (pyReplace sender "@s.whatsapp.net" "").toList.getD 4 ' ' = '9'
        · rw [if_pos h13, if_pos h13]
          dsimp only
          obtain ⟨t, ht⟩ := List.isPrefixOf_iff_prefix.mp h13.2.1
          have hkey :
              ((⟨(pyReplace sender "@s.whatsapp.net" "").toList.take 4 ++
                  (pyReplace sender "@s.whatsapp.net" "").toList.drop 5⟩ : String) ++
                "@s.whatsapp.net") ++ "_state" =
              (⟨['5', '5'] ++
                  ((pyReplace sender "@s.whatsapp.net" "").toList.drop 2).take 2 ++
                  (pyReplace sender "@s.whatsapp.net" "").toList.drop 5⟩ : String) ++
                "@s.whatsapp.net_state" := by
            rw [string_mk_append_append]
            rw [show ("@s.whatsapp.net" ++ "_state" : String) = "@s.whatsapp.net_state"
              from by decide]
            apply congrArg (· ++ "@s.whatsapp.net_state")
            apply congrArg String.mk
            rw [← ht]
            simp
          rw [hkey]
          cases storeGet store
              ((⟨['5', '5'] ++
                  ((pyReplace sender "@s.whatsapp.net" "").toList.drop 2).take 2 ++
                  (pyReplace sender "@s.whatsapp.net" "").toList.drop 5⟩ : String) ++
                "@s.whatsapp.net_state") with
          | none => rfl
          | some ad =>
            dsimp only
            rw [isCompleteState_eq]
        · rw [if_neg h13, if_neg h13]
  · unfold set_lead_state
    rw [storeGet_storeSet]

/-- Witness for C5 at a concrete store where the 12-digit key finds the
complete record stored under the 13-digit alternate. -/
theorem lead_lookup_reconciliation_witness :
    get_lead_state
        [("556112345678@s.whatsapp.net_state", [("nome", PyVal.str "x")]),
         ("5561912345678@s.whatsapp.net_state",
           [("segmento", PyVal.str "estetica")])]
        "556112345678@s.whatsapp.net" =
      leadLookupSpec
        [("556112345678@s.whatsapp.net_state", [("nome", PyVal.str "x")]),
         ("5561912345678@s.whatsapp.net_state",
           [("segmento", PyVal.str "estetica")])]
        "556112345678@s.whatsapp.net" ∧
    get_lead_state
        [("556112345678@s.whatsapp.net_state", [("nome", PyVal.str "x")]),
         ("5561912345678@s.whatsapp.net_state",
           [("segmento", PyVal.str "estetica")])]
        "556112345678@s.whatsapp.net" =
      some [("segmento", PyVal.str "estetica")] :=
  ⟨(lead_lookup_reconciliation
      [("556112345678@s.whatsapp.net_state", [("nome", PyVal.str "x")]),
       ("5561912345678@s.whatsapp.net_state",
         [("segmento", PyVal.str "estetica")])]
      "556112345678@s.whatsapp.net" [] "").1,
   by decide⟩

/-! ## C6 -/

theorem dictGet_dictSet (d : PyDict) (k k' : String) (v : PyVal) :
    dictGet (dictSet d k v) k' = if k' = k then some v else dictGet d k' := by
  unfold dictGet dictSet
  by_cases hex : (d.find? (fun p => p.1 = k)).isSome = true
  · rw [if_pos hex]
    by_cases hk : k' = k
    · subst hk
      rw [if_pos rfl, find?_fst_map_update_self d k' v hex]
      rfl
    · rw [if_neg hk, find?_fst_map_update d k k' v hk]
  · rw [if_neg hex]
    have hnone : d.find? (fun p => p.1 = k) = none := by
      cases hfind : d.find? (fun p => p.1 = k) with
      | none => rfl
      | some q => rw [hfind] at hex; simp at hex
    by_cases hk : k' = k
    · subst hk
      rw [if_pos rfl, List.find?_append, hnone]
      simp [List.find?]
    · rw [if_neg hk, List.find?_append]
      have hkk : (decide (k = k')) = false :=
        decide_eq_false fun hh => hk hh.symm
      have : List.find? (fun p => p.1 = k') [(k, v)] = none := by
        simp [List.find?, hkk]
      rw [this, Option.or_none]

/-- The agent response of the C6 counterexample: it carries the
follow-up marker — which is not a qualification marker — and the
`situacao` keyword `me conta`. -/
def c6Response : String := "[FOLLOW_UP_24H] me conta mais sobre isso"

/-- The lead state before the C6 counterexample. -/
def c6State0 : PyDict := [("etapa_spin", PyVal.str "problema")]

/-- Counterexample to C6 as stated: the response contains no
qualification marker (`[QUALIFICADO]`/`[NAO_QUALIFICADO]`) and its
clean text contains the `situacao` keyword `me conta`, so the claim
prescribes `etapa_spin = "situacao"`; but the code skips SPIN inference
whenever any recognized marker fired — here the follow-up marker — and
leaves `etapa_spin` unchanged. -/
theorem spin_inference_skipped_on_any_tag :
    (strContains c6Response "[QUALIFICADO]" = false ∧
     strContains c6Response "[NAO_QUALIFICADO]" = false ∧
     strContains
       (pyLower (processTagsCore c6Response c6State0).clean) "me conta" = true ∧
     inferEtapa (pyLower (processTagsCore c6Response c6State0).clean) =
       some "situacao") ∧
    dictGet (processTagsCore c6Response c6State0).workingState "etapa_spin" =
      some (PyVal.str "problema") := by
  constructor
  · refine ⟨by decide, by decide, by decide, by decide⟩
  · decide

/-- C6 (amended): for every response in which no recognized marker of
any kind occurs (so `tags_found` stays empty), the SPIN stage of the
working state is the first stage of `ETAPA_KEYWORDS` — in the priority
order situacao, problema, implicacao, necessidade — one of whose
keywords occurs in the lowercased clean text, and it is left unchanged
when no keyword matches. -/
theorem spin_inference_first_match (response : String) (st : PyDict)
    (hq : strContains response "[QUALIFICADO]" = false)
    (hn : strContains response "[NAO_QUALIFICADO]" = false)
    (hf : strContains response "[FOLLOW_UP_24H]" = false)
    (ht : strContains response "[TRANSFERIR_VENDEDOR]" = false)
    (ha : strContains response "[ENVIAR_AUDIO]" = false) :
    dictGet (processTagsCore response st).workingState "etapa_spin" =
      (match inferEtapa (pyLower (processTagsCore response st).clean) with
       | some etapa => some (PyVal.str etapa)
       | none => dictGet st "etapa_spin") := by
  have hfold : TAG_MAPPING.foldl tagPhase (response, st, []) = (response, st, []) := by
    simp [TAG_MAPPING, tagPhase, hq, hn, hf, ht, ha]
  unfold processTagsCore
  rw [hfold]
  dsimp only
  cases hinf : inferEtapa
      (pyLower
        (if (scanObjecoes response).1 ≠ [] then pyStrip (scanObjecoes response).2
         else response)) with
  | none => rw [if_pos rfl]
  | some etapa =>
    rw [if_pos rfl]
    dsimp only
    rw [dictGet_dictSet, if_pos rfl]

/-- Witness for C6 (amended): a tag-free answer whose text matches the
`problema` keyword list moves the stage to `problema`. -/
theorem spin_inference_first_match_witness :
    (strContains "qual a maior dificuldade de hoje" "[QUALIFICADO]" = false ∧
     inferEtapa
       (pyLower
         (processTagsCore "qual a maior dificuldade de hoje" c6State0).clean) =
       some "problema") ∧
    dictGet
        (processTagsCore "qual a maior dificuldade de hoje" c6State0).workingState
        "etapa_spin" =
      some (PyVal.str "problema") :=
  ⟨⟨by decide, by decide⟩,
   (spin_inference_first_match "qual a maior dificuldade de hoje" c6State0
       (by decide) (by decide) (by decide) (by decide) (by decide)).trans
     (by decide)⟩

/-! ## C8 -/

/-- C8: `process_webhook` applies the pre-consolidation filters in
order with short-circuit — self-originated messages, AI-echo matches,
block-flagged senders, and contentless messages are each dropped,
returning `false` without touching any debounce buffer; a message from
a block-flagged sender is dropped before buffering no matter what else
holds; and only a message passing all four filters is buffered. -/
theorem webhook_prefilters (aiMessages : String → List String)
    (blocked : String → Bool) (buffers : String → List String)
    (transcription : Option String) (w : Webhook) :
    (w.isFromMe = true →
      process_webhook aiMessages blocked buffers transcription w =
        (false, buffers)) ∧
    (∀ t, w.isFromMe = false → w.textContent = some t → t ≠ "" →
      is_ai_message (aiMessages w.sender) t = true →
      process_webhook aiMessages blocked buffers transcription w =
        (false, buffers)) ∧
    (w.isFromMe = false →
      (match w.textContent with
       | some t => t ≠ "" && is_ai_message (aiMessages w.sender) t
       | none => false) = false →
      blocked w.sender = true →
      process_webhook aiMessages blocked buffers transcription w =
        (false, buffers)) ∧
    (w.isFromMe = false →
      (match w.textContent with
       | some t => t ≠ "" && is_ai_message (aiMessages w.sender) t
       | none => false) = false →
      blocked w.sender = false →
      (extractMessageContent transcription w = none ∨
        extractMessageContent transcription w = some "") →
      process_webhook aiMessages blocked buffers transcription w =
        (false, buffers)) ∧
    (blocked w.sender = true →
      process_webhook aiMessages blocked buffers transcription w =
        (false, buffers)) ∧
    (∀ t, w.isFromMe = false →
      (match w.textContent with
       | some t => t ≠ "" && is_ai_message (aiMessages w.sender) t
       | none => false) = false →
      blocked w.sender = false →
      extractMessageContent transcription w = some t → t ≠ "" →
      process_webhook aiMessages blocked buffers transcription w =
        (true, fun snd =>
          if snd = w.sender then buffers snd ++ [t] else buffers snd)) := by
  refine ⟨?_, ?_, ?_, ?_, ?_, ?_⟩
  · intro hfm
    unfold process_webhook
    simp [hfm]
  · intro t hfm htc hne hai
    unfold process_webhook
    simp [hfm, htc, hne, hai]
  · intro hfm hai hb
    unfold process_webhook
    simp [hfm, hai, hb]
  · intro hfm hai hb hext
    unfold process_webhook
    rcases hext with hext | hext <;> simp [hfm, hai, hb, hext]
  · intro hb
    unfold process_webhook
    by_cases hfm : w.isFromMe
    · simp [hfm]
    · cases hai : (match w.textContent with
                   | some t => t ≠ "" && is_ai_message (aiMessages w.sender) t
                   | none => false)
      · simp [hfm, hai, hb]
      · simp [hfm, hai]
  · intro t hfm hai hb hext hne
    simp only [decide_not] at hai
    unfold process_webhook
    simp [hfm, hai, hb, hext, hne]

/-- Witness for C8: after sender `B` is block-flagged, an inbound text
fragment from `B` is dropped and `B`'s debounce buffer stays empty. -/
theorem webhook_prefilters_witness :
    (process_webhook (fun _ => []) (fun snd => snd = "B") (fun _ => [])
        none ⟨"B", false, some "oi", MsgType.conversation⟩).2 "B" = [] := by
  have h :=
    (webhook_prefilters (fun _ => []) (fun snd => snd = "B") (fun _ => [])
        none ⟨"B", false, some "oi", MsgType.conversation⟩).2.2.2.2.1
      (by decide)
  rw [h]

/-! ## C1 and C7: debounce theorems -/

/-- Evaluation of `fire` when the guard passes. -/
theorem fire_of_guard (handler : List HistEntry → String → Option String)
    (s : DbState) (armed lastMsg : String)
    (hp : s.pending = some armed) (hl : s.buffer.getLast? = some lastMsg)
    (hne : lastMsg ≠ "")
    (hc : listContainsSub lastMsg.toList armed.toList = true) :
    fire handler s =
      ({ buffer := [], pending := none,
         history := s.history ++ [("user", String.intercalate " " s.buffer)] },
       [DbEvent.clearBuffer,
        DbEvent.handlerCall (String.intercalate " " s.buffer) s.history,
        DbEvent.historyAppend "user" (String.intercalate " " s.buffer)] ++
         (match handler s.history (String.intercalate " " s.buffer) with
          | some r => [DbEvent.sendResponse r]
          | none => [])) := by
  unfold fire
  rw [hp, hl]
  dsimp only
  rw [if_pos ⟨hne, hc⟩]

/-- The failing burst for C1, with a 20-second quiet window: fragments
`"oi"` at 0s, `"sim"` at 1s, `"sim sim"` at 3s and `"tchau"` at 22s —
every gap under the window.  Fragment 2 cancels task 0 and registers
task 1; when the event loop delivers task 0's `CancelledError` at 2s,
task 0's `finally` clause deletes the registry entry, which by then
holds task 1.  Fragment 3 therefore finds no entry to cancel, so task 1
stays armed and fires at its 21s expiry, mid-burst; its guard passes
because its arming fragment `"sim"` is contained in the then-last
buffer entry `"sim sim"`.  Task 2's fire at 23s is blocked by the guard
(and in turn deletes task 3's entry), and task 3 fires at 42s. -/
def c1FailingSchedule : List LoopOp :=
  [LoopOp.submit 0 "oi",
   LoopOp.submit 1 "sim",
   LoopOp.deliverCancel 2 0,
   LoopOp.submit 3 "sim sim",
   LoopOp.fireTimer 21 1,
   LoopOp.submit 22 "tchau",
   LoopOp.fireTimer 23 2,
   LoopOp.fireTimer 42 3]

/-- C1 (code bug): on the time-ordered schedule `c1FailingSchedule`,
whose four fragments all arrive within the 20-second quiet window of
their predecessors, the dialogue handler is invoked twice — once
mid-burst with `"oi sim sim sim"` by the stray timer the third fragment
failed to cancel, and once with `"tchau"` — instead of exactly once
with all fragments joined, because the cancelled first task's `finally`
clause deleted the registry entry holding its replacement (shown by the
third and fourth conjuncts: after the cancel delivery the entry is gone
while task 1 is still armed and uncancelled).  The final conjunct shows
the two-fragment scenario of the claim still consolidates into the
single call `"oi tudo bem?"`: the slip needs a third fragment to
surface. -/
theorem debounce_double_handler_call :
    (monotoneTimes (c1FailingSchedule.map opTime) = true ∧
     submitTimesOf c1FailingSchedule = [0, 1, 3, 22] ∧
     gapsWithin 20 (submitTimesOf c1FailingSchedule) = true) ∧
    (runLoop 20 c1FailingSchedule initLoop).handlerCalls =
      ["oi sim sim sim", "tchau"] ∧
    (runLoop 20 (c1FailingSchedule.take 3) initLoop).entry = none ∧
    getTask (runLoop 20 (c1FailingSchedule.take 3) initLoop) 1 =
      some { armedText := "sim", expiry := 21, cancelRequested := false,
             finished := false } ∧
    (runLoop 20
        [LoopOp.submit 0 "oi", LoopOp.submit 1 "tudo bem?",
         LoopOp.deliverCancel 2 0, LoopOp.fireTimer 21 1]
        initLoop).handlerCalls = ["oi tudo bem?"] := by
  refine ⟨⟨by decide, by decide, by decide⟩, by decide, by decide, by decide,
    by decide⟩

/-- C7: whenever a debounce fire invokes the dialogue handler, the
history the handler can observe is the pre-fire history — it does not
contain the triggering consolidated turn — and the consolidated text is
appended to history with role `user` strictly after the handler call
(the trace is clear, handler call, then the `user` append), with
exactly one `user` entry added per consolidated turn. -/
theorem user_history_appended_after_handler
    (handler : List HistEntry → String → Option String) (s : DbState)
    (full : String) (hist : List HistEntry)
    (h : DbEvent.handlerCall full hist ∈ (fire handler s).2) :
    hist = s.history ∧
    (fire handler s).1.history = s.history ++ [("user", full)] ∧
    (fire handler s).2.countP isUserAppendEv = 1 ∧
    (∃ rest, (fire handler s).2 =
      DbEvent.clearBuffer :: DbEvent.handlerCall full hist ::
        DbEvent.historyAppend "user" full :: rest) := by
  cases hp : s.pending with
  | none =>
    unfold fire at h
    rw [hp] at h
    simp at h
  | some armed =>
    cases hl : s.buffer.getLast? with
    | none =>
      unfold fire at h
      rw [hp, hl] at h
      simp at h
    | some lastMsg =>
      by_cases hg : lastMsg ≠ "" ∧
          listContainsSub lastMsg.toList armed.toList = true
      · have hfire := fire_of_guard handler s armed lastMsg hp hl hg.1 hg.2
        rw [hfire] at h ⊢
        have hfh : full = String.intercalate " " s.buffer ∧ hist = s.history := by
          cases hh : handler s.history (String.intercalate " " s.buffer) <;>
            rw [hh] at h <;> simp [DbEvent.handlerCall.injEq] at h <;>
            exact ⟨h.1, h.2⟩
        obtain ⟨rfl, rfl⟩ := hfh
        refine ⟨rfl, rfl, ?_, ⟨_, rfl⟩⟩
        cases handler s.history (String.intercalate " " s.buffer) <;>
          simp [List.countP_cons, isUserAppendEv]
      · unfold fire at h
        rw [hp, hl] at h
        dsimp only at h
        rw [if_neg hg] at h
        simp at h

/-- Witness for C7 at a concrete fired burst. -/
theorem user_history_appended_after_handler_witness :
    DbEvent.handlerCall "oi" [] ∈
      (fire (fun _ _ => none) (submit ⟨[], none, []⟩ "oi")).2 ∧
    (fire (fun _ _ => none) (submit ⟨[], none, []⟩ "oi")).1.history =
      [] ++ [("user", "oi")] :=
  ⟨by decide,
   (user_history_appended_after_handler (fun _ _ => none)
       (submit ⟨[], none, []⟩ "oi") "oi" [] (by decide)).2.1⟩

/-! ## C2 -/

theorem cancelFS_of_cancelled (st : FState) (h : st.cancelled = true) :
    cancelFS st = st := by
  cases st
  simp [cancelFS]
  exact h

/-- On a cancelled (or absent) record, every operation is a no-op and
never sends. -/
theorem fstep_cancelled (s : Option FState) (op : FOp)
    (h : cancelledOf s = true) : fstep s op = (s, false) := by
  cases s with
  | none =>
    cases op with
    | cancel => rfl
    | wake hour today gen =>
      unfold fstep
      dsimp only
      cases get_current_period hour <;> rfl
  | some st =>
    have hc : st.cancelled = true := h
    cases op with
    | cancel =>
      unfold fstep
      simp [cancelFS_of_cancelled st hc]
    | wake hour today gen =>
      unfold fstep
      dsimp only
      cases get_current_period hour with
      | none => rfl
      | some p =>
        unfold check_and_send_followup
        by_cases h9 : st.attempts ≥ MAX_FOLLOWUP_ATTEMPTS
        · simp [h9, cancelFS_of_cancelled st hc]
        · simp [h9, hc]

/-- Models `attempts` never decreases and never passes the cap in one step. -/
theorem fstep_attempts (s : Option FState) (op : FOp) :
    attemptsOf s ≤ attemptsOf (fstep s op).1 ∧
    (attemptsOf s ≤ 9 → attemptsOf (fstep s op).1 ≤ 9) := by
  cases s with
  | none =>
    cases op with
    | cancel => simp [fstep, attemptsOf]
    | wake hour today gen =>
      unfold fstep
      dsimp only
      cases get_current_period hour with
      | none => simp [attemptsOf]
      | some p => simp [check_and_send_followup, attemptsOf]
  | some st =>
    cases op with
    | cancel => simp [fstep, attemptsOf, cancelFS]
    | wake hour today gen =>
      unfold fstep
      dsimp only
      cases get_current_period hour with
      | none => simp [attemptsOf]
      | some p =>
        unfold check_and_send_followup send_followup_message
        by_cases h9 : st.attempts ≥ MAX_FOLLOWUP_ATTEMPTS
        · simp [h9, attemptsOf, cancelFS]
        · by_cases hc : st.cancelled
          · simp [h9, hc, attemptsOf]
          · by_cases hsent : (match st.lastSent with
              | some d => decide (d = today) && decide (st.lastPeriod = some p)
              | none => false) = true
            · simp [h9, hc, hsent, attemptsOf]
            · cases gen with
              | none => simp [h9, hc, hsent, attemptsOf]
              | some msg =>
                have h9' : st.attempts ≤ 8 := by
                  simp [MAX_FOLLOWUP_ATTEMPTS] at h9
                  omega
                simp [h9, hc, hsent, attemptsOf]
                omega

theorem frun_cancelled (s : Option FState) (ops : List FOp)
    (h : cancelledOf s = true) : frun s ops = s ∧ sentCount s ops = 0 := by
  induction ops generalizing s with
  | nil => exact ⟨rfl, rfl⟩
  | cons op ops ih =>
    have hstep := fstep_cancelled s op h
    constructor
    · show frun (fstep s op).1 ops = s
      rw [hstep]
      exact (ih s h).1
    · show (if (fstep s op).2 then 1 else 0) + sentCount (fstep s op).1 ops = 0
      rw [hstep]
      simpa using (ih s h).2

theorem frun_attempts (s : Option FState) (ops : List FOp) :
    attemptsOf s ≤ attemptsOf (frun s ops) ∧
    (attemptsOf s ≤ 9 → attemptsOf (frun s ops) ≤ 9) := by
  induction ops generalizing s with
  | nil => exact ⟨Nat.le_refl _, fun h => h⟩
  | cons op ops ih =>
    have h1 := fstep_attempts s op
    have h2 := ih (fstep s op).1
    exact ⟨Nat.le_trans h1.1 h2.1, fun hc => h2.2 (h1.2 hc)⟩

/-- A record at the attempts cap never sends and gets cancelled on the
next in-window pass. -/
theorem fstep_at_cap (st : FState) (h9 : st.attempts = 9) :
    (∀ (p : Period) (today : Nat) (gen : Option String),
      check_and_send_followup (some st) p today gen =
        (some (cancelFS st), false)) ∧
    (∀ op : FOp, (fstep (some st) op).2 = false) := by
  have hge : st.attempts ≥ MAX_FOLLOWUP_ATTEMPTS := by
    simp [MAX_FOLLOWUP_ATTEMPTS, h9]
  constructor
  · intro p today gen
    unfold check_and_send_followup
    simp [hge]
  · intro op
    cases op with
    | cancel => rfl
    | wake hour today gen =>
      unfold fstep
      dsimp only
      cases get_current_period hour with
      | none => rfl
      | some p =>
        unfold check_and_send_followup
        simp [hge]

/-- C2: along every sequence of scheduler wakes and cancellations,
`attempts` is monotonically non-decreasing and never exceeds 9; once
`cancelled` is true no operation sends or changes the record; and a
record that has reached `attempts = 9` produces no send on the next
in-window scheduler pass — it is marked cancelled instead. -/
theorem followup_attempts_invariants (s : Option FState) (ops : List FOp)
    (hcap : attemptsOf s ≤ 9) :
    (attemptsOf s ≤ attemptsOf (frun s ops) ∧ attemptsOf (frun s ops) ≤ 9) ∧
    (cancelledOf s = true → frun s ops = s ∧ sentCount s ops = 0) ∧
    (∀ st : FState, s = some st → st.attempts = 9 →
      (∀ (p : Period) (today : Nat) (gen : Option String),
        check_and_send_followup s p today gen = (some (cancelFS st), false)) ∧
      (∀ op : FOp, (fstep s op).2 = false)) := by
  refine ⟨⟨(frun_attempts s ops).1, (frun_attempts s ops).2 hcap⟩,
    fun hc => frun_cancelled s ops hc, ?_⟩
  intro st hst h9
  subst hst
  exact fstep_at_cap st h9

/-- Witness for C2: a fresh record taken through an in-window send, an
out-of-window wake, a cancel and a further wake. -/
theorem followup_attempts_invariants_witness :
    attemptsOf (some (schedule_followup "Ana" "estetica" 0)) ≤ 9 ∧
    attemptsOf
        (frun (some (schedule_followup "Ana" "estetica" 0))
          [FOp.wake 9 1 (some "oi"), FOp.wake 11 1 (some "oi"), FOp.cancel,
           FOp.wake 14 1 (some "oi")]) ≤ 9 :=
  ⟨by decide,
   (followup_attempts_invariants (some (schedule_followup "Ana" "estetica" 0))
       [FOp.wake 9 1 (some "oi"), FOp.wake 11 1 (some "oi"), FOp.cancel,
        FOp.wake 14 1 (some "oi")] (by decide)).1.2⟩

end AgentESdr
